import Mathlib

/-!
Shallow embedding of the Spatial-CAPTCHA API server (v2.0 refactor,
`src/unnamed/part_000`): multi-tenant auth gate, challenge create/verify,
and server-to-server siteverify over two expiring key-value caches.

Modelling conventions:
* The two `NodeCache` instances (`sessionCache`, `passTokenCache`) are
  association lists; TTL expiry is abstracted into absence (an expired or
  never-set key is simply not in the list), matching the spec's store
  contract where `get` on a string key returns an optional value.
  `get` on a missing (`undefined`) key throws `EKEYTYPE` in node-cache;
  where the code can reach such a call (verify with an absent
  `session_id`) the model returns the handler's catch-all 500 response.
* Nondeterministic inputs of a request (the random model row, `uuidv4()`
  outputs, `Math.random()` draws, `new Date()`, success of the DB usage
  update) are passed in explicitly as oracle arguments.
* The Three.js quaternion angle computation is an external collaborator;
  it enters the model as an abstract function `angleDeg : Rot ℚ → Rot ℚ → ℚ`
  giving the angular distance in degrees.
* JavaScript falsiness of an optional string (`undefined` or `""`) is
  modelled by `strFalsy`.
-/

namespace SpatialCaptcha

/-- An Euler-angle triple `{x, y, z}` (radians), over a component type. -/
structure Rot (α : Type) where
  x : α
  y : α
  z : α
deriving DecidableEq, Repr

/-- `FREE_TIER_QUOTA = 1000` from the source. -/
def FREE_TIER_QUOTA : Nat := 1000

/-- `toleranceDegrees = 45` from the verify handler. -/
def toleranceDegrees : ℚ := 45

/-- A row of the `customers` table. -/
structure Customer where
  api_key : String
  secret_key : String
  allowed_domain : Option (List String)
  plan : String
  usage_count : Nat
deriving DecidableEq, Repr

/-- The value stored in the pass-token cache on a successful verify:
`{session_id, verified_at, error_angle}`. -/
structure TokenData where
  session_id : String
  verified_at : String
  error_angle : ℚ
deriving DecidableEq, Repr

/-- A `NodeCache` instance, as an association list from string keys to
values.  Expired entries are modelled as absent. -/
def Cache (α : Type) : Type := List (String × α)

namespace Cache

/-- The empty cache. -/
def empty {α : Type} : Cache α := []

/-- `cache.get(k)`: first binding of `k`, if any. -/
def get {α : Type} : Cache α → String → Option α
  | [], _ => none
  | (k', v) :: rest, k => if k' = k then some v else get rest k

/-- `cache.set(k, v)`: insert/overwrite the binding of `k`. -/
def set {α : Type} (c : Cache α) (k : String) (v : α) : Cache α :=
  (k, v) :: c

/-- `cache.del(k)`: remove every binding of `k` (idempotent). -/
def del {α : Type} : Cache α → String → Cache α
  | [], _ => []
  | (k', v) :: rest, k =>
    if k' = k then del rest k else (k', v) :: del rest k

theorem get_set_self {α : Type} (c : Cache α) (k : String) (v : α) :
    (c.set k v).get k = some v := by
  simp [set, get]

theorem get_del_self {α : Type} (c : Cache α) (k : String) :
    (c.del k).get k = none := by
  induction c with
  | nil => rfl
  | cons p rest ih =>
    obtain ⟨k', v⟩ := p
    by_cases h : k' = k <;> simp [del, get, h, ih]

theorem get_del_ne {α : Type} (c : Cache α) (k k' : String) (h : k' ≠ k) :
    (c.del k).get k' = c.get k' := by
  induction c with
  | nil => rfl
  | cons p rest ih =>
    obtain ⟨k₀, v⟩ := p
    by_cases h0 : k₀ = k
    · have hk : k₀ ≠ k' := fun hk' => h (hk'.symm.trans h0)
      have hk2 : k ≠ k' := fun hkk => h hkk.symm
      simp [del, get, h0, hk, hk2, ih]
    · simp [del, get, h0, ih]

theorem get_set_ne {α : Type} (c : Cache α) (k k' : String) (v : α)
    (h : k' ≠ k) : (c.set k v).get k' = c.get k' := by
  have hk : k ≠ k' := fun hk => h hk.symm
  simp [set, get, hk]

end Cache

/-- JavaScript falsiness of an optional string: absent (`undefined`) or
the empty string. -/
def strFalsy : Option String → Bool
  | none => true
  | some s => s = ""

/-- The whole mutable state the three handlers touch: the two expiring
caches plus the persistent `customers` and `models` tables. -/
structure ServerState where
  sessionCache : Cache (Rot ℚ)
  passTokenCache : Cache TokenData
  customers : List Customer
  models : List String

/-- `SELECT * FROM customers WHERE api_key = $1` (first row). -/
def lookupByApiKey (db : List Customer) (k : String) : Option Customer :=
  db.find? (fun c => c.api_key = k)

/-- `SELECT api_key FROM customers WHERE secret_key = $1` (first row). -/
def lookupBySecretKey (db : List Customer) (k : String) : Option Customer :=
  db.find? (fun c => c.secret_key = k)

/-- `UPDATE customers SET usage_count = usage_count + 1 WHERE api_key = $1`. -/
def incrementUsage (db : List Customer) (k : String) : List Customer :=
  db.map (fun c =>
    if c.api_key = k then { c with usage_count := c.usage_count + 1 } else c)

/-- Rejection reasons of the `/api/v1` gate middleware. -/
inductive AuthReason where
  | missingApiKey
  | invalidApiKey
  | originNotAllowed
  | quotaExceeded
deriving DecidableEq, Repr

/-- HTTP status attached to each gate rejection. -/
def AuthReason.status : AuthReason → Nat
  | .missingApiKey => 401
  | .invalidApiKey => 401
  | .originNotAllowed => 401
  | .quotaExceeded => 429

/-- Outcome of the gate middleware: reject, or proceed with the resolved
customer attached to the request (`req.customer_api_key`). -/
inductive AuthResult where
  | reject (reason : AuthReason)
  | allow (customer : Customer)
deriving DecidableEq, Repr

/-- `customer.allowed_domain && customer.allowed_domain.includes(origin)`:
an absent header or a null/empty allow-list never matches. -/
def originAllowed (c : Customer) (origin : Option String) : Bool :=
  match c.allowed_domain, origin with
  | some doms, some o => doms.contains o
  | _, _ => false

/-- The `/api/v1` gate middleware (checks 1-4, short-circuiting),
from `app.use('/api/v1', ...)`. -/
def authGate (db : List Customer) (apiKey origin : Option String) :
    AuthResult :=
  if strFalsy apiKey then .reject .missingApiKey
  else
    match lookupByApiKey db (apiKey.getD "") with
    | none => .reject .invalidApiKey
    | some customer =>
      if ¬ originAllowed customer origin then .reject .originNotAllowed
      else if customer.plan = "free" ∧ customer.usage_count ≥ FREE_TIER_QUOTA
        then .reject .quotaExceeded
      else .allow customer

/-- The JSON/status responses any of the three handlers (or the gate)
can produce. -/
inductive Response where
  | authReject (reason : AuthReason)
  | created (session_id : String) (model_url : String) (target : Rot ℚ)
  | createError
  | verifyInvalidSession
  | verifyServerError
  | verifyOk (pass_token : String) (error_angle tolerance : ℚ)
  | verifyFail (error_angle tolerance : ℚ)
  | missingParameters
  | invalidSecretKey
  | expiredOrUnknownToken
  | siteverifyOk (challenge_ts : String) (error_angle : ℚ)
deriving DecidableEq, Repr

/-- HTTP status code of each response (`res.json` without
`res.status(...)` is 200). -/
def Response.status : Response → Nat
  | .authReject r => r.status
  | .created _ _ _ => 201
  | .createError => 500
  | .verifyInvalidSession => 400
  | .verifyServerError => 500
  | .verifyOk _ _ _ => 200
  | .verifyFail _ _ => 200
  | .missingParameters => 400
  | .invalidSecretKey => 401
  | .expiredOrUnknownToken => 200
  | .siteverifyOk _ _ => 200

/-- Whether a response carries `verified: true` (only the verify success
path does). -/
def Response.verified : Response → Bool
  | .verifyOk _ _ _ => true
  | _ => false

/-- `app.post('/api/v1/verify', ...)` after the gate: look up the session,
burn it unconditionally, compare the quaternion angle against the
tolerance, and mint a pass token on success.  `angleDeg` is the Three.js
angular distance (degrees), `now` the `new Date().toISOString()` value,
`freshTok` the `uuidv4()` pass token.  When `session_id` is absent the
handler calls `sessionCache.get(undefined)` before its own falsiness
check; node-cache throws `EKEYTYPE` on a non-string key, so the request
lands in the handler's catch and answers the generic 500, never reaching
the 400 branch. -/
def verifyHandler (angleDeg : Rot ℚ → Rot ℚ → ℚ) (now freshTok : String)
    (st : ServerState) (session_id : Option String) (user_rotation : Rot ℚ) :
    Response × ServerState :=
  match session_id with
  | none => (.verifyServerError, st)
  | some sid =>
    match st.sessionCache.get sid with
    | none => (.verifyInvalidSession, st)
    | some target =>
      if sid = "" then (.verifyInvalidSession, st)
      else
        let st1 := { st with sessionCache := st.sessionCache.del sid }
        let angleDegrees := angleDeg user_rotation target
        if angleDegrees < toleranceDegrees then
          let td : TokenData :=
            { session_id := sid, verified_at := now, error_angle := angleDegrees }
          (.verifyOk freshTok angleDegrees toleranceDegrees,
            { st1 with passTokenCache := st1.passTokenCache.set freshTok td })
        else
          (.verifyFail angleDegrees toleranceDegrees, st1)

/-- `app.post('/api/v1/siteverify', ...)`: require both parameters,
authenticate the tenant by `secret_key`, look up and unconditionally burn
the pass token, and return its recorded `verified_at`/`error_angle`. -/
def siteverifyHandler (st : ServerState)
    (secret_key pass_token : Option String) : Response × ServerState :=
  if strFalsy secret_key ∨ strFalsy pass_token then (.missingParameters, st)
  else
    match lookupBySecretKey st.customers (secret_key.getD "") with
    | none => (.invalidSecretKey, st)
    | some _ =>
      match st.passTokenCache.get (pass_token.getD "") with
      | none => (.expiredOrUnknownToken, st)
      | some tokenData =>
        (.siteverifyOk tokenData.verified_at tokenData.error_angle,
          { st with
            passTokenCache := st.passTokenCache.del (pass_token.getD "") })

/-- Per-request nondeterminism of the create handler: the random
`models` row, the `uuidv4()` session id, the random target rotation
(already converted to radians), and whether the usage `UPDATE`/`COMMIT`
throws (modelling a DB failure after the cache write). -/
structure CreateOracle where
  modelPick : Nat
  sessionId : String
  target : Rot ℚ
  incrementFails : Bool

/-- `app.post('/api/v1/create', ...)` after the gate.  The handler runs a
DB transaction (model select, usage update); the session-cache write in
the middle is in-memory and outside the transaction, so a later DB
failure rolls back the usage increment but leaves the cached session to
expire by TTL, and the caller gets a 500 with no `session_id`. -/
def createHandler (o : CreateOracle) (st : ServerState)
    (customerApiKey : String) : Response × ServerState :=
  match st.models[o.modelPick % st.models.length]? with
  | none => (.createError, st)
  | some selectedModelUrl =>
    let st1 := { st with
      sessionCache := st.sessionCache.set o.sessionId o.target }
    if o.incrementFails then
      (.createError, st1)
    else
      (.created o.sessionId selectedModelUrl o.target,
        { st1 with customers := incrementUsage st1.customers customerApiKey })

/-- An inbound request to one of the three `/api/v1` endpoints, with the
credentials it presents. -/
inductive Request where
  | create (apiKey origin : Option String)
  | verify (apiKey origin : Option String) (session_id : Option String)
      (user_rotation : Rot ℚ)
  | siteverify (secret_key pass_token : Option String)

/-- All per-request nondeterminism, bundled. -/
structure Oracle where
  createOracle : CreateOracle
  angleDeg : Rot ℚ → Rot ℚ → ℚ
  now : String
  freshPassToken : String

/-- One request through the server: the gate middleware runs before
`create` and `verify` and is skipped for `siteverify`. -/
def step (o : Oracle) (st : ServerState) (req : Request) :
    Response × ServerState :=
  match req with
  | .siteverify sk pt => siteverifyHandler st sk pt
  | .create apiKey origin =>
    match authGate st.customers apiKey origin with
    | .reject r => (.authReject r, st)
    | .allow customer => createHandler o.createOracle st customer.api_key
  | .verify apiKey origin sid rot =>
    match authGate st.customers apiKey origin with
    | .reject r => (.authReject r, st)
    | .allow _ => verifyHandler o.angleDeg o.now o.freshPassToken st sid rot

/-- `degToRad(degrees) = degrees * (Math.PI / 180)`. -/
noncomputable def degToRad (degrees : ℝ) : ℝ := degrees * (Real.pi / 180)

/-- `randFloat(min, max) = Math.random() * (max - min) + min`, with the
`Math.random()` draw `r ∈ [0, 1)` made explicit. -/
def randFloat (min max r : ℝ) : ℝ := r * (max - min) + min

/-- The `targetRotation` generator of the create handler: three
independent draws, `x` and `y` over ±90°, `z` over ±45°, converted to
radians. -/
noncomputable def targetRotationGen (r1 r2 r3 : ℝ) : Rot ℝ :=
  { x := degToRad (randFloat (-90) 90 r1)
  , y := degToRad (randFloat (-90) 90 r2)
  , z := degToRad (randFloat (-45) 45 r3) }

/-! ### Helper lemmas about the verify handler -/

theorem verifyHandler_no_session (a : Rot ℚ → Rot ℚ → ℚ) (now tok : String)
    (st : ServerState) (rot : Rot ℚ) :
    verifyHandler a now tok st none rot = (.verifyServerError, st) := rfl

theorem verifyHandler_dead_session (a : Rot ℚ → Rot ℚ → ℚ)
    (now tok : String) (st : ServerState) (sid : String) (rot : Rot ℚ)
    (hget : st.sessionCache.get sid = none) :
    verifyHandler a now tok st (some sid) rot = (.verifyInvalidSession, st) := by
  simp [verifyHandler, hget]

theorem verifyHandler_live_sessionCache (a : Rot ℚ → Rot ℚ → ℚ)
    (now tok : String) (st : ServerState) (sid : String)
    (rot target : Rot ℚ) (hsid : sid ≠ "")
    (hget : st.sessionCache.get sid = some target) :
    (verifyHandler a now tok st (some sid) rot).2.sessionCache
      = st.sessionCache.del sid := by
  simp only [verifyHandler, hget]
  rw [if_neg hsid]
  split <;> rfl

theorem verifyHandler_success (a : Rot ℚ → Rot ℚ → ℚ) (now tok : String)
    (st : ServerState) (sid : String) (rot target : Rot ℚ)
    (hsid : sid ≠ "") (hget : st.sessionCache.get sid = some target)
    (hsucc : a rot target < toleranceDegrees) :
    verifyHandler a now tok st (some sid) rot
      = (.verifyOk tok (a rot target) toleranceDegrees,
         { st with sessionCache := st.sessionCache.del sid
                 , passTokenCache := st.passTokenCache.set tok
                     { session_id := sid, verified_at := now
                     , error_angle := a rot target } }) := by
  simp [verifyHandler, hget, hsid, hsucc]

/-! ### Helper lemmas about the siteverify handler -/

theorem siteverifyHandler_dead_token (st : ServerState) (sk pt : String)
    (c : Customer) (hsk : sk ≠ "") (hpt : pt ≠ "")
    (hc : lookupBySecretKey st.customers sk = some c)
    (ht : st.passTokenCache.get pt = none) :
    siteverifyHandler st (some sk) (some pt)
      = (.expiredOrUnknownToken, st) := by
  simp [siteverifyHandler, strFalsy, hsk, hpt, hc, ht]

theorem siteverifyHandler_live_token (st : ServerState) (sk pt : String)
    (c : Customer) (td : TokenData) (hsk : sk ≠ "") (hpt : pt ≠ "")
    (hc : lookupBySecretKey st.customers sk = some c)
    (ht : st.passTokenCache.get pt = some td) :
    siteverifyHandler st (some sk) (some pt)
      = (.siteverifyOk td.verified_at td.error_angle,
         { st with passTokenCache := st.passTokenCache.del pt }) := by
  simp [siteverifyHandler, strFalsy, hsk, hpt, hc, ht]

/-! ### Demo fixtures used by the witness theorems -/

/-- A concrete tenant row. -/
def demoCustomer : Customer :=
  { api_key := "ak_1", secret_key := "sk_live_1"
  , allowed_domain := some ["https://demo.example"]
  , plan := "free", usage_count := 0 }

/-- A concrete zero rotation. -/
def demoRot : Rot ℚ := { x := 0, y := 0, z := 0 }

/-- A concrete server state: one live session `"abc"`, one live pass
token `"t0"`, one tenant, one catalog model. -/
def demoState : ServerState :=
  { sessionCache := [("abc", demoRot)]
  , passTokenCache := [("t0", { session_id := "old", verified_at := "ts0", error_angle := 2 })]
  , customers := [demoCustomer]
  , models := ["model.glb"] }

/-- A concrete stand-in for the Three.js angular-distance collaborator. -/
def demoAngle : Rot ℚ → Rot ℚ → ℚ := fun u t => (u.x - t.x) + (u.y - t.y)

/-! ### Claims -/

/-- C1: a verify call whose session lookup succeeds burns the session
regardless of outcome: afterwards the session id is gone from the
Challenge Store, and every later verify call with that same `session_id`
(whatever rotation, timestamp or token it brings, i.e. including correct
credentials) returns the invalid-or-expired-session failure and leaves
the state unchanged, so a session id is accepted by at most one verify
call. -/
theorem verify_burns_session_one_shot (a : Rot ℚ → Rot ℚ → ℚ)
    (now tok : String) (st : ServerState) (sid : String)
    (rot target : Rot ℚ) (hsid : sid ≠ "")
    (hget : st.sessionCache.get sid = some target) :
    (verifyHandler a now tok st (some sid) rot).2.sessionCache.get sid = none ∧
    (∀ (a' : Rot ℚ → Rot ℚ → ℚ) (now' tok' : String) (rot' : Rot ℚ),
      verifyHandler a' now' tok'
          (verifyHandler a now tok st (some sid) rot).2 (some sid) rot'
        = (.verifyInvalidSession,
            (verifyHandler a now tok st (some sid) rot).2)) := by
  have hdel : (verifyHandler a now tok st (some sid) rot).2.sessionCache.get sid
      = none := by
    rw [verifyHandler_live_sessionCache a now tok st sid rot target hsid hget]
    exact Cache.get_del_self _ _
  exact ⟨hdel, fun a' now' tok' rot' =>
    verifyHandler_dead_session a' now' tok' _ sid rot' hdel⟩

theorem verify_burns_session_one_shot_witness :
    ("abc" : String) ≠ "" ∧
    demoState.sessionCache.get "abc" = some demoRot ∧
    ((verifyHandler demoAngle "ts1" "t1" demoState (some "abc") demoRot).2.sessionCache.get "abc"
        = none ∧
      (∀ (a' : Rot ℚ → Rot ℚ → ℚ) (now' tok' : String) (rot' : Rot ℚ),
        verifyHandler a' now' tok'
            (verifyHandler demoAngle "ts1" "t1" demoState (some "abc") demoRot).2
            (some "abc") rot'
          = (.verifyInvalidSession,
              (verifyHandler demoAngle "ts1" "t1" demoState (some "abc") demoRot).2))) :=
  ⟨by decide, by decide,
    verify_burns_session_one_shot demoAngle "ts1" "t1" demoState "abc"
      demoRot demoRot (by decide) (by decide)⟩

/-- C2: on a live session, the verify response has `verified = true`
exactly when the measured angular distance is strictly below the fixed
45° tolerance; on success a fresh pass token is stored with
`{session_id, verified_at, error_angle}` and returned together with
`error_angle` and `tolerance`; on failure the response is
`verified = false` with `error_angle` and `tolerance` and the Pass-Token
Store is untouched. -/
theorem verify_tolerance_threshold (a : Rot ℚ → Rot ℚ → ℚ)
    (now tok : String) (st : ServerState) (sid : String)
    (rot target : Rot ℚ) (hsid : sid ≠ "")
    (hget : st.sessionCache.get sid = some target) :
    toleranceDegrees = 45 ∧
    ((verifyHandler a now tok st (some sid) rot).1.verified = true ↔
      a rot target < 45) ∧
    (a rot target < 45 →
      (verifyHandler a now tok st (some sid) rot).1
          = .verifyOk tok (a rot target) 45 ∧
      (verifyHandler a now tok st (some sid) rot).2.passTokenCache.get tok
          = some { session_id := sid, verified_at := now
                 , error_angle := a rot target }) ∧
    (¬ a rot target < 45 →
      (verifyHandler a now tok st (some sid) rot).1
          = .verifyFail (a rot target) 45 ∧
      (verifyHandler a now tok st (some sid) rot).2.passTokenCache
          = st.passTokenCache) := by
  refine ⟨rfl, ?_, ?_, ?_⟩
  · by_cases h : a rot target < 45 <;>
      simp [verifyHandler, hget, hsid, toleranceDegrees, h, Response.verified]
  · intro h
    simp [verifyHandler, hget, hsid, toleranceDegrees, h, Cache.get_set_self]
  · intro h
    simp [verifyHandler, hget, hsid, toleranceDegrees, h]

theorem verify_tolerance_threshold_witness :
    ("abc" : String) ≠ "" ∧
    demoState.sessionCache.get "abc" = some demoRot ∧
    (toleranceDegrees = 45 ∧
      ((verifyHandler demoAngle "ts1" "t1" demoState (some "abc") demoRot).1.verified = true ↔
        demoAngle demoRot demoRot < 45) ∧
      (demoAngle demoRot demoRot < 45 →
        (verifyHandler demoAngle "ts1" "t1" demoState (some "abc") demoRot).1
            = .verifyOk "t1" (demoAngle demoRot demoRot) 45 ∧
        (verifyHandler demoAngle "ts1" "t1" demoState (some "abc") demoRot).2.passTokenCache.get "t1"
            = some { session_id := "abc", verified_at := "ts1"
                   , error_angle := demoAngle demoRot demoRot }) ∧
      (¬ demoAngle demoRot demoRot < 45 →
        (verifyHandler demoAngle "ts1" "t1" demoState (some "abc") demoRot).1
            = .verifyFail (demoAngle demoRot demoRot) 45 ∧
        (verifyHandler demoAngle "ts1" "t1" demoState (some "abc") demoRot).2.passTokenCache
            = demoState.passTokenCache)) :=
  ⟨by decide, by decide,
    verify_tolerance_threshold demoAngle "ts1" "t1" demoState "abc"
      demoRot demoRot (by decide) (by decide)⟩

/-- C10 counterexample: at a concrete live state, a verify request whose
`session_id` is absent from the body answers the generic 500 internal
error — `sessionCache.get(undefined)` throws `EKEYTYPE` into the catch
before the `!session_id` check can produce the 400 — so the claimed 400
invalid-session response does not happen. -/
theorem verify_absent_session_gets_500 :
    (verifyHandler demoAngle "ts1" "t1" demoState none demoRot).1
        = .verifyServerError ∧
    (verifyHandler demoAngle "ts1" "t1" demoState none demoRot).1
        ≠ .verifyInvalidSession ∧
    Response.verifyServerError.status = 500 ∧
    (verifyHandler demoAngle "ts1" "t1" demoState none demoRot).2
        = demoState :=
  ⟨rfl, by decide, rfl, rfl⟩

/-- C10 (amended): a verify request whose `session_id` is present but
names no live Challenge Store entry gets the 400 invalid-session
response, while one whose `session_id` is absent gets the 500 internal
error (node-cache throws `EKEYTYPE` on the undefined key before the 400
branch is reached); in both cases nothing is deleted and the whole
server state (both stores included) is returned unchanged. -/
theorem verify_dead_session_frame (a : Rot ℚ → Rot ℚ → ℚ)
    (now tok : String) (st : ServerState) (rot : Rot ℚ) :
    (verifyHandler a now tok st none rot = (.verifyServerError, st) ∧
      Response.verifyServerError.status = 500) ∧
    (∀ sid, st.sessionCache.get sid = none →
      verifyHandler a now tok st (some sid) rot
        = (.verifyInvalidSession, st)) ∧
    Response.verifyInvalidSession.status = 400 :=
  ⟨⟨verifyHandler_no_session a now tok st rot, rfl⟩,
    fun sid hget => verifyHandler_dead_session a now tok st sid rot hget,
    rfl⟩

theorem verify_dead_session_frame_witness :
    demoState.sessionCache.get "nope" = none ∧
    verifyHandler demoAngle "ts1" "t1" demoState (some "nope") demoRot
      = (.verifyInvalidSession, demoState) :=
  ⟨by decide,
    (verify_dead_session_frame demoAngle "ts1" "t1" demoState demoRot).2.1
      "nope" (by decide)⟩

/-- C3: with a valid `secret_key`, a siteverify call whose token lookup
fails answers `ExpiredOrUnknownToken` as a plain 200 (not an HTTP
error) and changes nothing; and a call whose token lookup succeeds burns
the token before responding, so the token is gone afterwards and every
repeat call with the same token (under any tenant's valid secret key)
answers `ExpiredOrUnknownToken`: a pass token is accepted at most
once. -/
theorem siteverify_token_one_shot (st : ServerState) (sk pt : String)
    (c : Customer) (hsk : sk ≠ "") (hpt : pt ≠ "")
    (hc : lookupBySecretKey st.customers sk = some c) :
    (st.passTokenCache.get pt = none →
      siteverifyHandler st (some sk) (some pt)
        = (.expiredOrUnknownToken, st) ∧
      Response.expiredOrUnknownToken.status = 200) ∧
    (∀ td : TokenData, st.passTokenCache.get pt = some td →
      (siteverifyHandler st (some sk) (some pt)).2.passTokenCache.get pt
          = none ∧
      (∀ (sk' : String) (c' : Customer), sk' ≠ "" →
        lookupBySecretKey
            (siteverifyHandler st (some sk) (some pt)).2.customers sk'
          = some c' →
        siteverifyHandler (siteverifyHandler st (some sk) (some pt)).2
            (some sk') (some pt)
          = (.expiredOrUnknownToken,
             (siteverifyHandler st (some sk) (some pt)).2))) := by
  constructor
  · intro ht
    exact ⟨siteverifyHandler_dead_token st sk pt c hsk hpt hc ht, rfl⟩
  · intro td ht
    rw [siteverifyHandler_live_token st sk pt c td hsk hpt hc ht]
    refine ⟨Cache.get_del_self _ _, ?_⟩
    intro sk' c' hsk' hc'
    exact siteverifyHandler_dead_token _ sk' pt c' hsk' hpt hc'
      (Cache.get_del_self _ _)

theorem siteverify_token_one_shot_witness :
    ("sk_live_1" : String) ≠ "" ∧ ("t0" : String) ≠ "" ∧
    lookupBySecretKey demoState.customers "sk_live_1" = some demoCustomer ∧
    ((demoState.passTokenCache.get "t0" = none →
      siteverifyHandler demoState (some "sk_live_1") (some "t0")
        = (.expiredOrUnknownToken, demoState) ∧
      Response.expiredOrUnknownToken.status = 200) ∧
    (∀ td : TokenData, demoState.passTokenCache.get "t0" = some td →
      (siteverifyHandler demoState (some "sk_live_1") (some "t0")).2.passTokenCache.get "t0"
          = none ∧
      (∀ (sk' : String) (c' : Customer), sk' ≠ "" →
        lookupBySecretKey
            (siteverifyHandler demoState (some "sk_live_1") (some "t0")).2.customers sk'
          = some c' →
        siteverifyHandler (siteverifyHandler demoState (some "sk_live_1") (some "t0")).2
            (some sk') (some "t0")
          = (.expiredOrUnknownToken,
             (siteverifyHandler demoState (some "sk_live_1") (some "t0")).2)))) :=
  ⟨by decide, by decide, by decide,
    siteverify_token_one_shot demoState "sk_live_1" "t0" demoCustomer
      (by decide) (by decide) (by decide)⟩

/-- C6: a siteverify call whose `secret_key` matches no tenant is
rejected with `InvalidSecretKey` before the Pass-Token Store is
consulted: even a live, otherwise-valid `pass_token` is neither consumed
nor read out (the state is unchanged and the token still present). -/
theorem siteverify_invalid_secret_precedes_token (st : ServerState)
    (sk pt : String) (td : TokenData) (hsk : sk ≠ "") (hpt : pt ≠ "")
    (hc : lookupBySecretKey st.customers sk = none)
    (hlive : st.passTokenCache.get pt = some td) :
    siteverifyHandler st (some sk) (some pt) = (.invalidSecretKey, st) ∧
    (siteverifyHandler st (some sk) (some pt)).2.passTokenCache.get pt
      = some td := by
  have h1 : siteverifyHandler st (some sk) (some pt)
      = (.invalidSecretKey, st) := by
    simp [siteverifyHandler, strFalsy, hsk, hpt, hc]
  exact ⟨h1, by rw [h1]; exact hlive⟩

theorem siteverify_invalid_secret_precedes_token_witness :
    ("sk_wrong" : String) ≠ "" ∧ ("t0" : String) ≠ "" ∧
    lookupBySecretKey demoState.customers "sk_wrong" = none ∧
    demoState.passTokenCache.get "t0"
      = some { session_id := "old", verified_at := "ts0", error_angle := 2 } ∧
    (siteverifyHandler demoState (some "sk_wrong") (some "t0")
        = (.invalidSecretKey, demoState) ∧
      (siteverifyHandler demoState (some "sk_wrong") (some "t0")).2.passTokenCache.get "t0"
        = some { session_id := "old", verified_at := "ts0", error_angle := 2 }) :=
  ⟨by decide, by decide, by decide, by decide,
    siteverify_invalid_secret_precedes_token demoState "sk_wrong" "t0"
      { session_id := "old", verified_at := "ts0", error_angle := 2 }
      (by decide) (by decide) (by decide) (by decide)⟩

/-- C7: a pass token minted by a successful verify round-trips through
the Pass-Token Store: the first siteverify call redeeming it (under a
valid secret key) answers `success = true` with `challenge_ts` equal to
the `verified_at` timestamp recorded by that verify call and
`error_angle` equal to the angular distance it measured, and burns the
token. -/
theorem verify_siteverify_roundtrip (a : Rot ℚ → Rot ℚ → ℚ)
    (now tok : String) (st : ServerState) (sid : String)
    (rot target : Rot ℚ) (sk : String) (c : Customer)
    (hsid : sid ≠ "") (hget : st.sessionCache.get sid = some target)
    (hsucc : a rot target < toleranceDegrees)
    (hsk : sk ≠ "") (htok : tok ≠ "")
    (hc : lookupBySecretKey st.customers sk = some c) :
    siteverifyHandler (verifyHandler a now tok st (some sid) rot).2
        (some sk) (some tok)
      = (.siteverifyOk now (a rot target),
         { (verifyHandler a now tok st (some sid) rot).2 with
             passTokenCache :=
               (verifyHandler a now tok st (some sid) rot).2.passTokenCache.del
                 tok }) := by
  rw [verifyHandler_success a now tok st sid rot target hsid hget hsucc]
  exact siteverifyHandler_live_token _ sk tok c
    { session_id := sid, verified_at := now, error_angle := a rot target }
    hsk htok hc (Cache.get_set_self _ _ _)

theorem verify_siteverify_roundtrip_witness :
    ("abc" : String) ≠ "" ∧
    demoState.sessionCache.get "abc" = some demoRot ∧
    demoAngle demoRot demoRot < toleranceDegrees ∧
    ("sk_live_1" : String) ≠ "" ∧ ("t1" : String) ≠ "" ∧
    lookupBySecretKey demoState.customers "sk_live_1" = some demoCustomer ∧
    siteverifyHandler (verifyHandler demoAngle "ts1" "t1" demoState (some "abc") demoRot).2
        (some "sk_live_1") (some "t1")
      = (.siteverifyOk "ts1" (demoAngle demoRot demoRot),
         { (verifyHandler demoAngle "ts1" "t1" demoState (some "abc") demoRot).2 with
             passTokenCache :=
               (verifyHandler demoAngle "ts1" "t1" demoState (some "abc") demoRot).2.passTokenCache.del
                 "t1" }) :=
  ⟨by decide, by decide,
    by norm_num [demoAngle, demoRot, toleranceDegrees],
    by decide, by decide, by decide,
    verify_siteverify_roundtrip demoAngle "ts1" "t1" demoState "abc"
      demoRot demoRot "sk_live_1" demoCustomer (by decide) (by decide)
      (by norm_num [demoAngle, demoRot, toleranceDegrees]) (by decide)
      (by decide) (by decide)⟩

/-- C9: a siteverify call that fails with `MissingParameters` or
`InvalidSecretKey` leaves the server state — in particular the
Pass-Token Store — completely unchanged, so any live pass token it
presented is still redeemable afterwards. -/
theorem siteverify_failure_frame (st : ServerState) (sk pt : Option String)
    (h : (siteverifyHandler st sk pt).1 = .missingParameters ∨
         (siteverifyHandler st sk pt).1 = .invalidSecretKey) :
    (siteverifyHandler st sk pt).2 = st ∧
    (∀ (k : String) (v : TokenData), st.passTokenCache.get k = some v →
      (siteverifyHandler st sk pt).2.passTokenCache.get k = some v) := by
  have hst : (siteverifyHandler st sk pt).2 = st := by
    by_cases hf : strFalsy sk = true ∨ strFalsy pt = true
    · simp [siteverifyHandler, hf]
    · cases hc : lookupBySecretKey st.customers (sk.getD "") with
      | none => simp [siteverifyHandler, hf, hc]
      | some c =>
        cases ht : st.passTokenCache.get (pt.getD "") with
        | none => simp [siteverifyHandler, hf, hc, ht]
        | some td => simp [siteverifyHandler, hf, hc, ht] at h
  exact ⟨hst, fun k v hv => by rw [hst]; exact hv⟩

theorem siteverify_failure_frame_witness :
    ((siteverifyHandler demoState (some "sk_wrong") (some "t0")).1
        = .missingParameters ∨
      (siteverifyHandler demoState (some "sk_wrong") (some "t0")).1
        = .invalidSecretKey) ∧
    ((siteverifyHandler demoState (some "sk_wrong") (some "t0")).2 = demoState ∧
      (∀ (k : String) (v : TokenData),
        demoState.passTokenCache.get k = some v →
        (siteverifyHandler demoState (some "sk_wrong") (some "t0")).2.passTokenCache.get k
          = some v)) :=
  ⟨Or.inr (by decide),
    siteverify_failure_frame demoState (some "sk_wrong") (some "t0")
      (Or.inr (by decide))⟩

/-- Oracle used by witness theorems: model row 0, fresh ids `"s1"`/`"t1"`,
no DB failure. -/
def demoOracle : Oracle :=
  { createOracle :=
      { modelPick := 0, sessionId := "s1", target := demoRot
      , incrementFails := false }
  , angleDeg := demoAngle, now := "ts1", freshPassToken := "t1" }

/-- Create oracle whose usage `UPDATE` fails after the cache write. -/
def demoFailCreate : CreateOracle :=
  { modelPick := 0, sessionId := "s1", target := demoRot
  , incrementFails := true }

/-- C4: the gate runs its four checks in order, short-circuiting on the
first failure with its reason and status (absent key → MissingApiKey 401;
unknown key → InvalidApiKey 401; origin not allow-listed →
OriginNotAllowed 401; free plan at quota → QuotaExceeded 429); otherwise
it passes the resolved tenant on.  A gate rejection answers the request
with the rejection alone and leaves the server state unchanged, and the
gate guards only `create` and `verify`, not `siteverify`. -/
theorem authGate_checks_in_order (db : List Customer)
    (apiKey origin : Option String) (o : Oracle) (st : ServerState) :
    (strFalsy apiKey = true →
      authGate db apiKey origin = .reject .missingApiKey) ∧
    (∀ k : String, apiKey = some k → k ≠ "" →
      (lookupByApiKey db k = none →
        authGate db apiKey origin = .reject .invalidApiKey) ∧
      (∀ c : Customer, lookupByApiKey db k = some c →
        (originAllowed c origin = false →
          authGate db apiKey origin = .reject .originNotAllowed) ∧
        (originAllowed c origin = true →
          (c.plan = "free" → FREE_TIER_QUOTA ≤ c.usage_count →
            authGate db apiKey origin = .reject .quotaExceeded) ∧
          (¬ (c.plan = "free" ∧ FREE_TIER_QUOTA ≤ c.usage_count) →
            authGate db apiKey origin = .allow c)))) ∧
    (AuthReason.missingApiKey.status = 401 ∧
      AuthReason.invalidApiKey.status = 401 ∧
      AuthReason.originNotAllowed.status = 401 ∧
      AuthReason.quotaExceeded.status = 429) ∧
    (∀ r : AuthReason, authGate st.customers apiKey origin = .reject r →
      step o st (.create apiKey origin) = (.authReject r, st) ∧
      (∀ (sid : Option String) (rot : Rot ℚ),
        step o st (.verify apiKey origin sid rot) = (.authReject r, st))) ∧
    (∀ sk pt : Option String,
      step o st (.siteverify sk pt) = siteverifyHandler st sk pt) := by
  refine ⟨?_, ?_, ⟨rfl, rfl, rfl, rfl⟩, ?_, fun sk pt => rfl⟩
  · intro h
    simp [authGate, h]
  · rintro k rfl hk
    have hf : strFalsy (some k) = false := by simp [strFalsy, hk]
    constructor
    · intro hl
      simp [authGate, hf, hl]
    · intro c hl
      constructor
      · intro ho
        simp [authGate, hf, hl, ho]
      · intro ho
        constructor
        · intro hp hq
          simp [authGate, hf, hl, ho, hp, hq, ge_iff_le]
        · intro hnq
          simp [authGate, hf, hl, ho, hnq]
  · intro r hr
    exact ⟨by simp [step, hr], fun sid rot => by simp [step, hr]⟩

theorem authGate_checks_in_order_witness :
    authGate demoState.customers none none = .reject .missingApiKey ∧
    authGate demoState.customers (some "ak_1") (some "https://demo.example")
      = .allow demoCustomer ∧
    step demoOracle demoState (.create none none)
      = (.authReject .missingApiKey, demoState) :=
  ⟨(authGate_checks_in_order demoState.customers none none demoOracle
      demoState).1 rfl,
    ((((authGate_checks_in_order demoState.customers (some "ak_1")
        (some "https://demo.example") demoOracle demoState).2.1 "ak_1" rfl
        (by decide)).2 demoCustomer (by decide)).2 (by decide)).2
      (by decide),
    ((authGate_checks_in_order demoState.customers none none demoOracle
        demoState).2.2.2.1 .missingApiKey
      ((authGate_checks_in_order demoState.customers none none demoOracle
          demoState).1 rfl)).1⟩

/-- C5: a create call never delivers a `session_id` whose usage was not
counted.  When the usage increment fails after the session-cache write,
the call reports a 500 error (no session id is delivered), the usage
counter is untouched (the DB transaction rolled back) and the
already-cached session is merely left behind to expire by TTL; when it
succeeds, the 201 response and the usage increment go together, and any
`created` response implies the increment happened. -/
theorem create_usage_accounting (o : CreateOracle) (st : ServerState)
    (cak url : String)
    (hm : st.models[o.modelPick % st.models.length]? = some url) :
    (o.incrementFails = true →
      (createHandler o st cak).1 = .createError ∧
      (createHandler o st cak).2.customers = st.customers ∧
      (createHandler o st cak).2.sessionCache.get o.sessionId
        = some o.target) ∧
    (o.incrementFails = false →
      (createHandler o st cak).1 = .created o.sessionId url o.target ∧
      (createHandler o st cak).2.customers
        = incrementUsage st.customers cak ∧
      (createHandler o st cak).2.sessionCache.get o.sessionId
        = some o.target) ∧
    (∀ (sid m : String) (t : Rot ℚ),
      (createHandler o st cak).1 = .created sid m t →
      (createHandler o st cak).2.customers
        = incrementUsage st.customers cak) := by
  refine ⟨?_, ?_, ?_⟩
  · intro hfail
    simp [createHandler, hm, hfail, Cache.get_set_self]
  · intro hok
    simp [createHandler, hm, hok, Cache.get_set_self]
  · intro sid m t h
    cases hfail : o.incrementFails with
    | false => simp [createHandler, hm, hfail]
    | true =>
      exfalso
      simp [createHandler, hm, hfail] at h

theorem create_usage_accounting_witness :
    demoState.models[demoFailCreate.modelPick % demoState.models.length]?
      = some "model.glb" ∧
    ((demoFailCreate.incrementFails = true →
      (createHandler demoFailCreate demoState "ak_1").1 = .createError ∧
      (createHandler demoFailCreate demoState "ak_1").2.customers
        = demoState.customers ∧
      (createHandler demoFailCreate demoState "ak_1").2.sessionCache.get
          demoFailCreate.sessionId
        = some demoFailCreate.target) ∧
    (demoFailCreate.incrementFails = false →
      (createHandler demoFailCreate demoState "ak_1").1
        = .created demoFailCreate.sessionId "model.glb" demoFailCreate.target ∧
      (createHandler demoFailCreate demoState "ak_1").2.customers
        = incrementUsage demoState.customers "ak_1" ∧
      (createHandler demoFailCreate demoState "ak_1").2.sessionCache.get
          demoFailCreate.sessionId
        = some demoFailCreate.target) ∧
    (∀ (sid m : String) (t : Rot ℚ),
      (createHandler demoFailCreate demoState "ak_1").1 = .created sid m t →
      (createHandler demoFailCreate demoState "ak_1").2.customers
        = incrementUsage demoState.customers "ak_1")) :=
  ⟨by decide,
    create_usage_accounting demoFailCreate demoState "ak_1" "model.glb"
      (by decide)⟩

/-- Both draw bounds for one generated component: a uniform draw
`r ∈ [0, 1)` over `±a` degrees, converted to radians, lies within
`±(a·π/180)`. -/
theorem degToRad_randFloat_mem (a r : ℝ) (ha : 0 ≤ a) (h0 : 0 ≤ r)
    (h1 : r < 1) :
    -(Real.pi * a / 180) ≤ degToRad (randFloat (-a) a r) ∧
      degToRad (randFloat (-a) a r) ≤ Real.pi * a / 180 := by
  unfold degToRad randFloat
  constructor
  · nlinarith [Real.pi_pos, mul_nonneg (mul_nonneg h0 ha) Real.pi_pos.le]
  · nlinarith [Real.pi_pos,
      mul_nonneg (mul_nonneg (sub_nonneg.mpr h1.le) ha) Real.pi_pos.le]

/-- C8: the generated `target_orientation` has three independently drawn
components converted to radians — `x` and `y` uniform over ±90°, `z`
over ±45° — so for any `Math.random()` draws in `[0, 1)` the stored
target satisfies `x, y ∈ [-π/2, π/2]` and `z ∈ [-π/4, π/4]`. -/
theorem targetRotation_components_in_range (r1 r2 r3 : ℝ)
    (h10 : 0 ≤ r1) (h11 : r1 < 1) (h20 : 0 ≤ r2) (h21 : r2 < 1)
    (h30 : 0 ≤ r3) (h31 : r3 < 1) :
    (-(Real.pi / 2) ≤ (targetRotationGen r1 r2 r3).x ∧
      (targetRotationGen r1 r2 r3).x ≤ Real.pi / 2) ∧
    (-(Real.pi / 2) ≤ (targetRotationGen r1 r2 r3).y ∧
      (targetRotationGen r1 r2 r3).y ≤ Real.pi / 2) ∧
    (-(Real.pi / 4) ≤ (targetRotationGen r1 r2 r3).z ∧
      (targetRotationGen r1 r2 r3).z ≤ Real.pi / 4) := by
  have hx := degToRad_randFloat_mem 90 r1 (by norm_num) h10 h11
  have hy := degToRad_randFloat_mem 90 r2 (by norm_num) h20 h21
  have hz := degToRad_randFloat_mem 45 r3 (by norm_num) h30 h31
  simp only [targetRotationGen]
  refine ⟨⟨?_, ?_⟩, ⟨?_, ?_⟩, ⟨?_, ?_⟩⟩ <;>
    linarith [hx.1, hx.2, hy.1, hy.2, hz.1, hz.2]

theorem targetRotation_components_in_range_witness :
    ((0 : ℝ) ≤ 0 ∧ (0 : ℝ) < 1) ∧
    ((-(Real.pi / 2) ≤ (targetRotationGen 0 0 0).x ∧
      (targetRotationGen 0 0 0).x ≤ Real.pi / 2) ∧
    (-(Real.pi / 2) ≤ (targetRotationGen 0 0 0).y ∧
      (targetRotationGen 0 0 0).y ≤ Real.pi / 2) ∧
    (-(Real.pi / 4) ≤ (targetRotationGen 0 0 0).z ∧
      (targetRotationGen 0 0 0).z ≤ Real.pi / 4)) :=
  ⟨⟨le_rfl, by norm_num⟩,
    targetRotation_components_in_range 0 0 0 le_rfl (by norm_num) le_rfl
      (by norm_num) le_rfl (by norm_num)⟩

end SpatialCaptcha
